import Mathlib

/-!
Verification of the Pommai voice-interaction gateway and device client.

The definitions below are a shallow embedding of the Python sources:
  * `apps/fastrtc-gateway/server_relay.py` (gateway relay),
  * `apps/fastrtc-gateway/backup/tts_providers.py` (TTS provider layer),
  * `apps/raspberry-pi/src/fastrtc_connection.py` (device connection),
  * `apps/raspberry-pi/src/pommai_client_fastrtc.py` (device audio engine).
Bytes are modelled as `List Nat` (each entry < 256 where it matters), and
the effect of a handler is returned explicitly (new state, frames sent on
the session's WebSocket in order, scheduled background dispatch).
-/

namespace Pommai

/-- A byte sequence (Python `bytes`), one `Nat` per byte. -/
abbrev ByteSeq := List Nat

/-! ## Frame codec: hex decoding (Python `bytes.fromhex`) -/

/-- Value of one hexadecimal digit, `none` when the character is not a
hex digit (`bytes.fromhex` raises `ValueError` there). -/
def hexDigitVal (c : Char) : Option Nat :=
  if '0' ≤ c ∧ c ≤ '9' then some (c.toNat - '0'.toNat)
  else if 'a' ≤ c ∧ c ≤ 'f' then some (c.toNat - 'a'.toNat + 10)
  else if 'A' ≤ c ∧ c ≤ 'F' then some (c.toNat - 'A'.toNat + 10)
  else none

/-- Decode a list of hex digits two at a time (Python `bytes.fromhex`
after whitespace removal): fails on a stray digit or a non-digit. -/
def hexPairsDecode : List Char → Option ByteSeq
  | [] => some []
  | [_] => none
  | a :: b :: rest =>
    match hexDigitVal a, hexDigitVal b, hexPairsDecode rest with
    | some ha, some hb, some tl => some ((16 * ha + hb) :: tl)
    | _, _, _ => none

/-- Python `bytes.fromhex`: ASCII whitespace is ignored, then the string
must consist of hex-digit pairs. `none` models the raised `ValueError`. -/
def bytesFromHex (s : String) : Option ByteSeq :=
  hexPairsDecode (s.data.filter (fun c => ¬ c.isWhitespace))

/-! ## Frame codec: base64 encoding (Python `base64.b64encode`) -/

/-- The standard base64 alphabet. -/
def base64Alphabet : List Char :=
  "ABCDEFGHIJKLMNOPQRSTUVWXYZabcdefghijklmnopqrstuvwxyz0123456789+/".data

/-- Character for a 6-bit group. -/
def base64Char (n : Nat) : Char := base64Alphabet.getD n 'A'

/-- Standard base64 with `=` padding, three input bytes per four output
characters (Python `base64.b64encode`). -/
def base64Encode : ByteSeq → List Char
  | [] => []
  | [a] => [base64Char (a / 4), base64Char (a % 4 * 16), '=', '=']
  | [a, b] => [base64Char (a / 4), base64Char (a % 4 * 16 + b / 16),
               base64Char (b % 16 * 4), '=']
  | a :: b :: c :: rest =>
      base64Char (a / 4) :: base64Char (a % 4 * 16 + b / 16) ::
      base64Char (b % 16 * 4 + c / 64) :: base64Char (c % 64) ::
      base64Encode rest

/-! ## WAV containerization (gateway `handle_audio_chunk`, pcm16 branch,
mirroring what Python's `wave` module writes for a mono 16-bit file) -/

/-- Two little-endian bytes of a 16-bit value (struct pack `<H`). -/
def u16le (n : Nat) : ByteSeq := [n % 256, n / 256 % 256]

/-- Four little-endian bytes of a 32-bit value (struct pack `<L`). -/
def u32le (n : Nat) : ByteSeq :=
  [n % 256, n / 256 % 256, n / 65536 % 256, n / 16777216 % 256]

/-- The WAV file produced by `wave.open(..,'wb')` with
`setnchannels(1)`, `setsampwidth(2)`, `setframerate(sampleRate)` and
`writeframes(pcm)`: RIFF header, fmt chunk (PCM, mono, 16-bit), data
chunk holding the raw bytes. -/
def wavContainer (sampleRate : Nat) (pcm : ByteSeq) : ByteSeq :=
  [82, 73, 70, 70] ++ u32le (36 + pcm.length) ++          -- "RIFF", chunk size
  [87, 65, 86, 69] ++                                     -- "WAVE"
  [102, 109, 116, 32] ++ u32le 16 ++                      -- "fmt ", sub-chunk size
  u16le 1 ++ u16le 1 ++                                   -- PCM format, 1 channel
  u32le sampleRate ++ u32le (sampleRate * 2) ++           -- rate, byte rate
  u16le 2 ++ u16le 16 ++                                  -- block align, bits/sample
  [100, 97, 116, 97] ++ u32le pcm.length ++ pcm           -- "data", length, payload

/-- Parsed header facts of a WAV byte stream, as a reader (such as the
Python `wave` module on the Convex side) recovers them. -/
structure WavInfo where
  channels : Nat
  sampwidth : Nat
  frameRate : Nat
  nframes : Nat
  audioData : ByteSeq
deriving DecidableEq, Repr

/-- Parse a mono/stereo PCM WAV: checks the RIFF/WAVE/fmt/data tags, a
16-byte fmt chunk and audio format 1 (PCM), then reads channels, sample
rate, sample width and the data chunk. `nframes` is the data length
divided by the frame size, as the `wave` reader computes it. -/
def parseWav : ByteSeq → Option WavInfo
  | r1 :: r2 :: r3 :: r4 :: _ :: _ :: _ :: _ ::
    w1 :: w2 :: w3 :: w4 :: f1 :: f2 :: f3 :: f4 ::
    g1 :: g2 :: g3 :: g4 :: a1 :: a2 :: c0 :: c1 ::
    s0 :: s1 :: s2 :: s3 :: _ :: _ :: _ :: _ ::
    _ :: _ :: b0 :: b1 :: t1 :: t2 :: t3 :: t4 ::
    d0 :: d1 :: d2 :: d3 :: rest =>
    if [r1, r2, r3, r4] = [82, 73, 70, 70] ∧
       [w1, w2, w3, w4] = [87, 65, 86, 69] ∧
       [f1, f2, f3, f4] = [102, 109, 116, 32] ∧
       [g1, g2, g3, g4] = [16, 0, 0, 0] ∧
       [a1, a2] = [1, 0] ∧
       [t1, t2, t3, t4] = [100, 97, 116, 97] then
      let channels := c0 + 256 * c1
      let sampwidth := (b0 + 256 * b1) / 8
      let dataLen := d0 + 256 * d1 + 65536 * d2 + 16777216 * d3
      some { channels := channels
             sampwidth := sampwidth
             frameRate := s0 + 256 * s1 + 65536 * s2 + 16777216 * s3
             nframes := dataLen / (channels * sampwidth)
             audioData := rest.take dataLen }
    else none
  | _ => none

/-! ## Wire frames sent by the gateway (`server_relay.py`, `tts_providers.py`) -/

/-- Outbound frames the gateway writes on a session's WebSocket, in the
shapes the source serialises (`error` appears in two shapes: with a
top-level `error` key, and with a `payload` object). -/
inductive OutFrame where
  | handshakeAck
  | pong
  | controlAck (command : Option String)
  | statusProcessing
  | textResponse (text : String)
  | audioResponse (data : ByteSeq) (isFinal : Bool) (provider : Option String)
  | errorPayload (code msg : String)
  | errorTop (err : String)
deriving DecidableEq, Repr

/-! ## Gateway: `FastRTCRelayGateway.handle_audio_chunk` -/

/-- The `metadata` object of an `audio_chunk` frame, with the fields the
handler reads (`isFinal`, `format`, `sampleRate`). -/
structure AudioMetadata where
  isFinal : Bool
  format : String
  sampleRate : Nat
deriving DecidableEq, Repr

/-- The `payload` of an `audio_chunk` frame: hex `data` plus metadata. -/
structure AudioChunkPayload where
  data : String
  metadata : AudioMetadata
deriving DecidableEq, Repr

/-- The Python default payload `{}`: `data` is `''`, `isFinal` false,
format `'opus'`, sample rate 16000. -/
def emptyAudioPayload : AudioChunkPayload :=
  { data := "", metadata := { isFinal := false, format := "opus", sampleRate := 16000 } }

/-- Arguments of the scheduled Convex dispatch that vary with the audio:
the base64 `audioData` string and the `format` field of its metadata. -/
structure DispatchArgs where
  audioData : List Char
  format : String
deriving DecidableEq, Repr

/-- Result of one handler step at the session interface: the ingress
buffer afterwards, the frames written to the client in order, and the
scheduled background dispatch (if any). -/
structure ChunkResult where
  buffer : ByteSeq
  sent : List OutFrame
  dispatch : Option DispatchArgs
deriving DecidableEq, Repr

/-- Python `str.lower` on the format tag. -/
def strToLower (s : String) : String := ⟨s.data.map Char.toLower⟩

/-- Format-directed containerization of the buffered utterance
(`handle_audio_chunk`, final branch): pcm16 is wrapped in a WAV
container at the advertised rate and forwarded as `wav`; `wav`/`wave`,
`opus` and unknown formats are forwarded unchanged (the latter two with
a logged warning). -/
def containerize (fmt : String) (sampleRate : Nat) (buf : ByteSeq) : ByteSeq × String :=
  if fmt = "pcm16" then (wavContainer sampleRate buf, "wav")
  else if fmt = "wav" ∨ fmt = "wave" then (buf, "wav")
  else if fmt = "opus" then (buf, "opus")
  else (buf, fmt)

/-- The terminal-marker branch of `handle_audio_chunk`: containerize the
buffer, base64-encode it, clear the buffer, send `status:processing`,
and schedule the background AI dispatch. -/
def finishUtterance (fmt : String) (sampleRate : Nat) (buf : ByteSeq) : ChunkResult :=
  let fwd := containerize fmt sampleRate buf
  { buffer := []
    sent := [OutFrame.statusProcessing]
    dispatch := some { audioData := base64Encode fwd.1, format := fwd.2 } }

/-- `FastRTCRelayGateway.handle_audio_chunk`: buffer hex audio; an empty
non-final chunk is ignored; an empty final marker with an empty buffer
is dropped with a warning; invalid hex is logged and dropped; a final
chunk with buffered audio finishes the utterance. No branch sends an
error frame (exceptions are caught and only logged). -/
def handleAudioChunk (buf : ByteSeq) (p : AudioChunkPayload) : ChunkResult :=
  let isFinal := p.metadata.isFinal
  let fmt := strToLower p.metadata.format
  let rate := p.metadata.sampleRate
  if p.data = "" then
    if isFinal then
      if buf.length > 0 then finishUtterance fmt rate buf
      else { buffer := buf, sent := [], dispatch := none }
    else { buffer := buf, sent := [], dispatch := none }
  else
    match bytesFromHex p.data with
    | none => { buffer := buf, sent := [], dispatch := none }
    | some bs =>
      let buf2 := buf ++ bs
      if isFinal ∧ buf2.length > 0 then finishUtterance fmt rate buf2
      else { buffer := buf2, sent := [], dispatch := none }

/-! ## Gateway: `FastRTCRelayGateway.handle_client_message` -/

/-- An inbound client message after `json.loads`: either the parse
raised (`notJson`), or an object whose `type`, `command` and `payload`
fields the handler reads (`none` models an absent key). -/
inductive InMsg where
  | notJson
  | json (msgType : Option String) (command : Option String)
         (audioPayload : Option AudioChunkPayload)
deriving DecidableEq, Repr

/-- Effect of `handle_client_message`: buffer afterwards, frames sent,
scheduled dispatch, and whether the session was terminated by the
handler (it never is — all failures are answered with an error frame). -/
structure MsgResult where
  buffer : ByteSeq
  sent : List OutFrame
  dispatch : Option DispatchArgs
  terminated : Bool
deriving DecidableEq, Repr

/-- Python `f"{msg_type}"` on the `type` field: `None` prints as
`"None"`. -/
def pyStr : Option String → String
  | some s => s
  | none => "None"

/-- `FastRTCRelayGateway.handle_client_message`: dispatch on the `type`
discriminator; unknown types get `{type:'error', error:'unknown_message_type: <t>'}`,
a JSON parse failure gets `{type:'error', error:'invalid_json'}`; in
every case the handler returns to the read loop (never terminates the
session). -/
def handleClientMessage (buf : ByteSeq) (m : InMsg) : MsgResult :=
  match m with
  | .notJson => { buffer := buf, sent := [.errorTop "invalid_json"], dispatch := none, terminated := false }
  | .json mt cmd ap =>
    if mt = some "handshake" then
      { buffer := buf, sent := [.handshakeAck], dispatch := none, terminated := false }
    else if mt = some "ping" then
      { buffer := buf, sent := [.pong], dispatch := none, terminated := false }
    else if mt = some "control" then
      { buffer := buf, sent := [.controlAck cmd], dispatch := none, terminated := false }
    else if mt = some "audio_chunk" then
      let r := handleAudioChunk buf (ap.getD emptyAudioPayload)
      { buffer := r.buffer, sent := r.sent, dispatch := r.dispatch, terminated := false }
    else
      { buffer := buf, sent := [.errorTop ("unknown_message_type: " ++ pyStr mt)],
        dispatch := none, terminated := false }

/-! ## Gateway: `FastRTCRelayGateway.cleanup_inactive_sessions` -/

/-- Python `timedelta.seconds` of a non-negative interval: the seconds
of the within-day component, not the total duration. -/
def timedeltaSeconds (totalSeconds : Nat) : Nat := totalSeconds % 86400

/-- The reap test `(now - session.last_activity).seconds > 300` applied
to a session idle for `idleSeconds`. -/
def sessionIsReaped (idleSeconds : Nat) : Bool := 300 < timedeltaSeconds idleSeconds

/-- One pass of the cleanup loop over the live-sessions map (session id
paired with its idle time in seconds): the sessions that remain. -/
def cleanupInactiveSessions (sessions : List (String × Nat)) : List (String × Nat) :=
  sessions.filter (fun s => ¬ sessionIsReaped s.2)

/-! ## TTS provider layer (`tts_providers.py`) -/

/-- The `TTSProvider` enum admits exactly the members `elevenlabs` and
`minimax`; `TTSProvider(s)` raises `ValueError` on any other string. -/
def validProviderName (s : String) : Bool :=
  s = "elevenlabs" || s = "minimax"

/-- `TTSProvider(s)`: `some s` for an enum member, `none` models the
raised `ValueError`. -/
def parseTTSProvider (s : String) : Option String :=
  if validProviderName s then some s else none

/-- Observable behaviour of one provider's `stream_tts` run: the chunks
it yielded in order, and whether it then raised (a provider that raises
before yielding any bytes has `yielded = []` and `raised = true`). -/
structure ProviderRun where
  yielded : List ByteSeq
  raised : Bool
deriving DecidableEq, Repr

/-- The `TTS_FAILED` error frame of `stream_to_client` (also sent by
`process_and_respond_to_client` when `stream_to_client` raises). -/
def ttsFailedFrame : OutFrame :=
  .errorPayload "TTS_FAILED" "Text-to-speech service unavailable"

/-- Frames one `stream_to_client` attempt with `provider` writes before
its except clause runs: each yielded chunk as a non-final
`audio_response`, then — only if the stream completed without raising —
the empty final marker. -/
def attemptFrames (provider : String) (run : ProviderRun) : List OutFrame :=
  (run.yielded.map (fun c => OutFrame.audioResponse c false (some provider))) ++
  (if run.raised then [] else [OutFrame.audioResponse [] true (some provider)])

/-- `TTSStreamer.stream_to_client` with the default provider `default`
and per-provider behaviour `runOf`, called without an override on a toy
config whose `ttsProvider` key is `cfgProvider`. Returns `none` when
`TTSProvider(...)` raises out of the function (unknown provider name);
otherwise the frames written and the ordered list of providers
attempted. The single recursive fallback call (override = `default`) is
inlined: in that call the provider equals the default, so a second
failure sends the error frame. -/
def streamToClient (default : String) (runOf : String → ProviderRun)
    (cfgProvider : Option String) : Option (List OutFrame × List String) :=
  match parseTTSProvider (cfgProvider.getD default) with
  | none => none
  | some provider =>
    let run := runOf provider
    let frames := attemptFrames provider run
    if run.raised then
      if provider ≠ default then
        let run2 := runOf default
        let frames2 := attemptFrames default run2
        if run2.raised then some (frames ++ frames2 ++ [ttsFailedFrame], [provider, default])
        else some (frames ++ frames2, [provider, default])
      else some (frames ++ [ttsFailedFrame], [provider])
    else some (frames, [provider])

/-! ## Gateway: `FastRTCRelayGateway.process_and_respond_to_client` -/

/-- The Convex `processVoiceInteraction` result, with the fields the
gateway reads: `success`, `text`, the decoded `audioData` bytes (empty
when absent), and `error`. -/
structure ConvexResult where
  success : Bool
  text : String
  audioData : ByteSeq
  error : String
deriving DecidableEq, Repr

/-- `process_and_respond_to_client`: the ordered frames written to the
session for one utterance. `statusUpdates` counts the periodic
`status:processing` frames the heartbeat task wrote while the Convex
call was outstanding (all before the result arrives; the task is
cancelled before the response frames are sent). On success the text
response goes out first, then either provider streaming (when a
streamer exists, the text is non-empty, and SKIP_TTS is unset) — a
`ValueError` escaping `stream_to_client` is caught and answered with
the `TTS_FAILED` error frame — or the Convex-generated audio as a
single final `audio_response`; on failure a top-level error frame. -/
def processAndRespond (default : String) (runOf : String → ProviderRun)
    (statusUpdates : Nat) (hasStreamer skipTTSEnv : Bool)
    (res : ConvexResult) (cfgProvider : Option String) : List OutFrame :=
  List.replicate statusUpdates OutFrame.statusProcessing ++
  (if res.success then
    OutFrame.textResponse res.text ::
    (if hasStreamer ∧ res.text ≠ "" ∧ ¬skipTTSEnv then
      match streamToClient default runOf cfgProvider with
      | some out => out.1
      | none => [ttsFailedFrame]
    else if res.audioData ≠ [] then
      [OutFrame.audioResponse res.audioData true none]
    else [])
  else [OutFrame.errorTop res.error])

/-! ## Device: `FastRTCConnection` inbound audio queue -/

/-- `asyncio.Queue(maxsize=1000)` in `FastRTCConnection.__init__`. -/
def audioQueueCapacity : Nat := 1000

/-- One inbound-queue entry: the decoded bytes and the `isFinal` flag of
the metadata enqueued with them. -/
structure AudioQueueItem where
  data : ByteSeq
  isFinal : Bool
deriving DecidableEq, Repr

/-- `put_nowait`, recovering from `QueueFull` by `get_nowait` (drop the
oldest entry, with a logged warning) and a retried `put_nowait`.
Returns the queue afterwards and whether the overflow warning fired. -/
def enqueueDropOldest (q : List AudioQueueItem) (x : AudioQueueItem) :
    List AudioQueueItem × Bool :=
  if q.length < audioQueueCapacity then (q ++ [x], false)
  else
    match q with
    | [] => ([x], false)
    | _ :: rest => (rest ++ [x], true)

/-- `FastRTCConnection._handle_audio_response`: non-empty `data` is hex
decoded (`none` models the `ValueError` of `bytes.fromhex` escaping the
handler, nothing enqueued) and enqueued with drop-oldest overflow; empty
`data` with `isFinal=true` enqueues a terminal marker the same way;
empty non-final data does nothing. -/
def handleAudioResponseDevice (q : List AudioQueueItem) (dataHex : String)
    (isFinal : Bool) : Option (List AudioQueueItem × Bool) :=
  if dataHex ≠ "" then
    match bytesFromHex dataHex with
    | none => none
    | some bs => some (enqueueDropOldest q { data := bs, isFinal := isFinal })
  else if isFinal then
    some (enqueueDropOldest q { data := [], isFinal := isFinal })
  else
    some (q, false)

/-! ## Device: playback gating (`pommai_client_fastrtc.py`) -/

/-- The device flags the playback logic reads and writes:
`_audio_playback_running` and `audio_manager.is_playing`. -/
structure DeviceState where
  playbackRunning : Bool
  isPlaying : Bool
deriving DecidableEq, Repr

/-- Entry guard of `play_audio_from_queue`: a running playback makes the
call return at once (logged, ignored); otherwise the flag is set and
playback starts. Returns the state and whether playback started. -/
def playAudioFromQueueStart (s : DeviceState) : DeviceState × Bool :=
  if s.playbackRunning then (s, false)
  else ({ s with playbackRunning := true }, true)

/-- The `finally` block of `play_audio_from_queue`: the flag is cleared
when the playback task completes. -/
def playAudioFromQueueFinish (s : DeviceState) : DeviceState :=
  { s with playbackRunning := false }

/-- `handle_text_response` playback trigger: when the flag is set but
the audio manager is not actually playing, the flag is treated as stuck
and reset; then a playback task is created unless the flag is (still)
set. Returns the state and whether a new playback started. -/
def handleTextResponse (s : DeviceState) : DeviceState × Bool :=
  let s1 := if s.playbackRunning && !s.isPlaying then
              { s with playbackRunning := false } else s
  if !s1.playbackRunning then playAudioFromQueueStart s1
  else (s1, false)

/-- `_monitor_audio_queue`, the 500 ms post-utterance watchdog: returns
untouched while the flag is set; otherwise starts playback when the
inbound queue is non-empty. -/
def monitorAudioQueue (s : DeviceState) (queueSize : Nat) : DeviceState × Bool :=
  if s.playbackRunning then (s, false)
  else if queueSize > 0 then playAudioFromQueueStart s
  else (s, false)

/-! ## Theorems -/

/-- Claim C10: an `audio_chunk` whose `data` is empty with
`isFinal=false`, or whose `data` is not valid hex, is a no-op at the
session interface: buffer unchanged, no dispatch scheduled, no frame
(in particular no error frame) sent back. -/
theorem c10_ignored_chunks_are_noops (buf : ByteSeq) (p : AudioChunkPayload)
    (h : (p.data = "" ∧ p.metadata.isFinal = false) ∨ bytesFromHex p.data = none) :
    handleAudioChunk buf p = { buffer := buf, sent := [], dispatch := none } := by
  rcases h with ⟨h1, h2⟩ | hnone
  · simp [handleAudioChunk, h1, h2]
  · have hne : p.data ≠ "" := by
      intro he
      rw [he] at hnone
      exact absurd hnone (by decide)
    simp [handleAudioChunk, hne, hnone]

/-- Witness for C10 at a concrete invalid-hex chunk. -/
theorem c10_witness :
    handleAudioChunk [7] { data := "zz", metadata := { isFinal := true, format := "pcm16", sampleRate := 16000 } }
      = { buffer := [7], sent := [], dispatch := none } :=
  c10_ignored_chunks_are_noops [7] _ (Or.inr (by decide))

/-- Claim C8 (code bug): the reap test uses `timedelta.seconds`, the
within-day component, so a session idle for one day plus 100 seconds
(86500 s) is NOT closed even though it has been idle far longer than
300 seconds, while a session idle 301 seconds is closed. The cleanup
pass keeps the day-idle session in the live-sessions map. -/
theorem c8_day_long_idle_not_reaped :
    sessionIsReaped 301 = true ∧
    sessionIsReaped 86500 = false ∧ 300 < 86500 ∧
    cleanupInactiveSessions [("s1", 86500)] = [("s1", 86500)] := by decide

/-- Claim C9, counterexample: a `text_response` arriving while the
playback-running flag is set but the audio manager reports it is not
playing does NOT return without starting a second playback — it resets
the "stuck" flag and starts one (second component `true`). -/
theorem c9_stuck_flag_restarts_playback :
    handleTextResponse { playbackRunning := true, isPlaying := false }
      = ({ playbackRunning := true, isPlaying := false }, true) := by decide

/-- Claim C9, amended: while the flag is set, a second `text_response`
is ignored when the audio manager is actually playing; the watchdog and
the `play_audio_from_queue` reentry guard are always ignored while the
flag is set; a `text_response` while the flag is set but the manager is
not playing resets the stuck flag and starts a new playback; the flag
is cleared when the playback task completes. -/
theorem c9_playback_gate :
    (∀ s : DeviceState, s.playbackRunning = true → s.isPlaying = true →
       handleTextResponse s = (s, false)) ∧
    (∀ (s : DeviceState) (q : Nat), s.playbackRunning = true →
       monitorAudioQueue s q = (s, false)) ∧
    (∀ s : DeviceState, s.playbackRunning = true →
       playAudioFromQueueStart s = (s, false)) ∧
    (∀ s : DeviceState, s.playbackRunning = true → s.isPlaying = false →
       (handleTextResponse s).2 = true) ∧
    (∀ s : DeviceState, (playAudioFromQueueFinish s).playbackRunning = false) := by
  refine ⟨?_, ?_, ?_, ?_, ?_⟩
  · intro s h1 h2
    cases s
    simp_all [handleTextResponse]
  · intro s q h1
    cases s
    simp_all [monitorAudioQueue]
  · intro s h1
    cases s
    simp_all [playAudioFromQueueStart]
  · intro s h1 h2
    cases s
    simp_all [handleTextResponse, playAudioFromQueueStart]
  · intro s
    cases s
    simp [playAudioFromQueueFinish]

/-- Witness for C9 at a concrete state with the flag set and playing. -/
theorem c9_witness :
    handleTextResponse { playbackRunning := true, isPlaying := true }
      = ({ playbackRunning := true, isPlaying := true }, false) :=
  c9_playback_gate.1 { playbackRunning := true, isPlaying := true } rfl rfl

/-- Claim C2, counterexample: a final `audio_chunk` with empty data
arriving on an empty ingress buffer triggers neither an AI dispatch nor
an error frame — the handler drops it with only a logged warning. -/
theorem c2_empty_final_marker_dropped :
    handleAudioChunk [] { data := "", metadata := { isFinal := true, format := "pcm16", sampleRate := 16000 } }
      = { buffer := [], sent := [], dispatch := none } := by decide

/-- Claim C2, amended: on a final `audio_chunk` the gateway either
schedules the AI dispatch with the containerized, base64-encoded buffer
contents — clearing the buffer and sending `status:processing` in the
same step — or (empty final marker on an empty buffer, or hex-invalid
data) drops the frame without dispatching, without sending any frame,
and with the buffer unchanged. No error frame is ever sent. -/
theorem c2_final_chunk_dispatch_or_drop (buf : ByteSeq) (p : AudioChunkPayload)
    (hfin : p.metadata.isFinal = true) :
    (∃ buf2, buf2 ≠ [] ∧
       (buf2 = buf ∨ ∃ bs, bytesFromHex p.data = some bs ∧ buf2 = buf ++ bs) ∧
       handleAudioChunk buf p
         = { buffer := []
             sent := [OutFrame.statusProcessing]
             dispatch := some
               { audioData := base64Encode (containerize (strToLower p.metadata.format) p.metadata.sampleRate buf2).1
                 format := (containerize (strToLower p.metadata.format) p.metadata.sampleRate buf2).2 } })
    ∨ handleAudioChunk buf p = { buffer := buf, sent := [], dispatch := none } := by
  by_cases hdat : p.data = ""
  · by_cases hbuf : buf.length > 0
    · exact Or.inl ⟨buf, List.length_pos.mp hbuf, Or.inl rfl,
        by simp [handleAudioChunk, hdat, hfin, hbuf, finishUtterance]⟩
    · exact Or.inr (by simp [handleAudioChunk, hdat, hfin, hbuf])
  · cases hdec : bytesFromHex p.data with
    | none => exact Or.inr (by simp [handleAudioChunk, hdat, hdec])
    | some bs =>
      by_cases hb2 : (buf ++ bs).length > 0
      · refine Or.inl ⟨buf ++ bs, List.length_pos.mp hb2, Or.inr ⟨bs, rfl, rfl⟩, ?_⟩
        simp [handleAudioChunk, hdat, hdec, hfin, finishUtterance]
        intro h1 h2
        rw [h1, h2] at hb2
        simp at hb2
      · refine Or.inr ?_
        have hbs : bs = [] := by
          have := List.length_append buf bs
          have h0 : buf.length = 0 ∧ bs.length = 0 := by omega
          exact List.eq_nil_of_length_eq_zero h0.2
        have hbuf0 : buf = [] := by
          have := List.length_append buf bs
          have h0 : buf.length = 0 := by omega
          exact List.eq_nil_of_length_eq_zero h0
        simp [handleAudioChunk, hdat, hdec, hfin, hb2, hbs, hbuf0]

/-- Witness for C2 at a concrete final chunk with buffered audio. -/
theorem c2_witness :
    (∃ buf2, buf2 ≠ [] ∧
       (buf2 = [1, 2] ∨ ∃ bs, bytesFromHex "" = some bs ∧ buf2 = [1, 2] ++ bs) ∧
       handleAudioChunk [1, 2] { data := "", metadata := { isFinal := true, format := "pcm16", sampleRate := 16000 } }
         = { buffer := []
             sent := [OutFrame.statusProcessing]
             dispatch := some
               { audioData := base64Encode (containerize (strToLower "pcm16") 16000 buf2).1
                 format := (containerize (strToLower "pcm16") 16000 buf2).2 } })
    ∨ handleAudioChunk [1, 2] { data := "", metadata := { isFinal := true, format := "pcm16", sampleRate := 16000 } }
        = { buffer := [1, 2], sent := [], dispatch := none } :=
  c2_final_chunk_dispatch_or_drop [1, 2]
    { data := "", metadata := { isFinal := true, format := "pcm16", sampleRate := 16000 } } rfl

/-- Claim C6: the device's inbound audio queue has capacity 1000; an
`audio_response` with non-empty (hex-valid) data arriving on a full
queue drops the oldest entry, enqueues the new one at the back and
fires the overflow warning; and an `audio_response` with empty data and
`isFinal=true` is enqueued as a terminal marker, likewise dropping the
oldest entry when the queue is full. -/
theorem c6_inbound_queue_policy :
    audioQueueCapacity = 1000 ∧
    (∀ (q : List AudioQueueItem) (dataHex : String) (bs : ByteSeq) (fin : Bool),
       q.length = audioQueueCapacity → bytesFromHex dataHex = some bs → dataHex ≠ "" →
       handleAudioResponseDevice q dataHex fin
         = some (q.tail ++ [{ data := bs, isFinal := fin }], true)) ∧
    (∀ q : List AudioQueueItem,
       handleAudioResponseDevice q "" true
         = some (if q.length < audioQueueCapacity
                 then (q ++ [{ data := [], isFinal := true }], false)
                 else (q.tail ++ [{ data := [], isFinal := true }], true))) := by
  refine ⟨rfl, ?_, ?_⟩
  · intro q dataHex bs fin hq hdec hne
    cases q with
    | nil => simp [audioQueueCapacity] at hq
    | cons h t =>
      simp only [List.length_cons] at hq
      have hlen : ¬ (t.length + 1 < audioQueueCapacity) := by omega
      simp [handleAudioResponseDevice, hne, hdec, enqueueDropOldest, hlen]
  · intro q
    by_cases hlt : q.length < audioQueueCapacity
    · simp [handleAudioResponseDevice, enqueueDropOldest, hlt]
    · cases q with
      | nil => simp [audioQueueCapacity] at hlt
      | cons h t => simp [handleAudioResponseDevice, enqueueDropOldest, hlt]

/-- Witness for C6: a full queue of 1000 markers receives a non-empty
chunk; the oldest entry is dropped and the chunk enqueued. -/
theorem c6_witness :
    handleAudioResponseDevice (List.replicate 1000 { data := [], isFinal := false }) "0a" false
      = some ((List.replicate 1000 ({ data := [], isFinal := false } : AudioQueueItem)).tail
                ++ [{ data := [10], isFinal := false }], true) :=
  c6_inbound_queue_policy.2.1 _ "0a" [10] false
    (by rw [List.length_replicate]; rfl) (by decide) (by decide)

/-- Claim C7, counterexample: the unknown-type error string the gateway
sends contains a space after the colon — `unknown_message_type: foo` —
not the claimed `unknown_message_type:foo`. -/
theorem c7_unknown_type_string_has_space :
    (handleClientMessage [] (.json (some "foo") none none)).sent
      = [.errorTop "unknown_message_type: foo"] ∧
    ("unknown_message_type: foo" : String) ≠ "unknown_message_type:foo" := by decide

/-- Claim C7, amended: non-JSON input is answered with
`{type:'error', error:'invalid_json'}`; JSON with an unrecognized type
`t` with `{type:'error', error:'unknown_message_type: t'}` (note the
space; a missing `type` field prints as `None`); in both cases — and
for every message — the handler does not terminate the session. -/
theorem c7_decoder_errors (buf : ByteSeq) :
    (handleClientMessage buf .notJson
       = { buffer := buf, sent := [.errorTop "invalid_json"], dispatch := none, terminated := false }) ∧
    (∀ (t : String) (cmd : Option String) (ap : Option AudioChunkPayload),
       t ≠ "handshake" → t ≠ "ping" → t ≠ "control" → t ≠ "audio_chunk" →
       handleClientMessage buf (.json (some t) cmd ap)
         = { buffer := buf, sent := [.errorTop ("unknown_message_type: " ++ t)],
             dispatch := none, terminated := false }) ∧
    (∀ (cmd : Option String) (ap : Option AudioChunkPayload),
       handleClientMessage buf (.json none cmd ap)
         = { buffer := buf, sent := [.errorTop "unknown_message_type: None"],
             dispatch := none, terminated := false }) ∧
    (∀ m : InMsg, (handleClientMessage buf m).terminated = false) := by
  refine ⟨rfl, ?_, ?_, ?_⟩
  · intro t cmd ap h1 h2 h3 h4
    simp [handleClientMessage, h1, h2, h3, h4, pyStr]
  · intro cmd ap
    simp [handleClientMessage, pyStr]
  · intro m
    cases m with
    | notJson => rfl
    | json mt cmd ap =>
      simp only [handleClientMessage]
      split_ifs <;> rfl

/-- Witness for C7 at the concrete unknown type `foo`. -/
theorem c7_witness :
    handleClientMessage [] (.json (some "foo") none none)
      = { buffer := [], sent := [.errorTop "unknown_message_type: foo"],
          dispatch := none, terminated := false } :=
  (c7_decoder_errors []).2.1 "foo" none none (by decide) (by decide) (by decide) (by decide)

/-- Claim C3, counterexample: when the selected provider IS the
configured default and it raises before yielding any bytes, no retry
happens — the attempt list has a single entry, not the two entries a
retry with the default would produce; the error frame goes out after
the single failure. -/
theorem c3_default_selected_no_retry :
    streamToClient "elevenlabs" (fun _ => { yielded := [], raised := true }) (some "elevenlabs")
      = some ([ttsFailedFrame], ["elevenlabs"]) ∧
    (["elevenlabs"] : List String) ≠ ["elevenlabs", "elevenlabs"] := by decide

/-- Claim C3, amended: if the selected provider raises before yielding
any bytes, the gateway retries with the configured default only when
the selected provider differs from it; when both attempts fail (or when
the selected provider is itself the default and fails, with no retry)
the client gets exactly one `TTS_FAILED` error frame, no audio frames,
and `stream_to_client` returns normally (the session survives). -/
theorem c3_tts_fallback (default p : String) (runOf : String → ProviderRun)
    (hvalid : validProviderName p = true)
    (hp : runOf p = { yielded := [], raised := true })
    (hd : runOf default = { yielded := [], raised := true }) :
    streamToClient default runOf (some p)
      = some ([ttsFailedFrame], if p = default then [p] else [p, default]) := by
  by_cases hpd : p = default
  · subst hpd
    simp [streamToClient, parseTTSProvider, hvalid, hp, attemptFrames]
  · simp [streamToClient, parseTTSProvider, hvalid, hp, hd, hpd, attemptFrames]

/-- Witness for C3: both providers fail before yielding; selected
differs from the default, so the default is attempted once. -/
theorem c3_witness :
    streamToClient "elevenlabs" (fun _ => { yielded := [], raised := true }) (some "minimax")
      = some ([ttsFailedFrame],
              if ("minimax" : String) = "elevenlabs" then ["minimax"] else ["minimax", "elevenlabs"]) :=
  c3_tts_fallback "elevenlabs" "minimax" _ (by decide) rfl rfl

/-- Claim C5, counterexample: a toy configuration naming an unknown
provider (`azure`) makes `TTSProvider(...)` raise out of
`stream_to_client` (result `none`) even though the default provider
would have streamed fine; the gateway then sends `TTS_FAILED` and the
response carries no audio — it does not fall back to the default. -/
theorem c5_unknown_provider_fails_response :
    streamToClient "elevenlabs" (fun _ => { yielded := [[1, 2]], raised := false }) (some "azure")
      = none ∧
    processAndRespond "elevenlabs" (fun _ => { yielded := [[1, 2]], raised := false }) 0 true false
        { success := true, text := "hi", audioData := [], error := "" } (some "azure")
      = [.textResponse "hi", ttsFailedFrame] := by decide

/-- Claim C5, amended: a missing `ttsProvider` key resolves to the
configured default provider (the only attempt is the default); a key
naming an unknown provider raises a `ValueError` out of
`stream_to_client` instead of falling back, and the caller turns that
into a failed response. -/
theorem c5_provider_resolution (default : String) (runOf : String → ProviderRun)
    (hdef : validProviderName default = true) :
    (∃ out, streamToClient default runOf none = some out ∧ out.2 = [default]) ∧
    (∀ s, validProviderName s = false → streamToClient default runOf (some s) = none) := by
  constructor
  · by_cases h : (runOf default).raised
    · exact ⟨(attemptFrames default (runOf default) ++ [ttsFailedFrame], [default]),
        by simp [streamToClient, parseTTSProvider, hdef, h], rfl⟩
    · exact ⟨(attemptFrames default (runOf default), [default]),
        by simp [streamToClient, parseTTSProvider, hdef, h], rfl⟩
  · intro s hs
    simp [streamToClient, parseTTSProvider, hs]

/-- Witness for C5: default `elevenlabs`, missing key resolves to it;
the unknown name `azure` raises. -/
theorem c5_witness :
    streamToClient "elevenlabs" (fun _ => { yielded := [], raised := false }) (some "azure")
      = none :=
  (c5_provider_resolution "elevenlabs" (fun _ => { yielded := [], raised := false })
    (by decide)).2 "azure" (by decide)

/-- Helper: in a frame list of the shape
`status* ++ text_response :: rest`, every `audio_response` sits at an
index strictly after an index holding the `text_response`. -/
theorem textFirstAux (k : Nat) (t : String) (rest : List OutFrame) :
    ∀ (i : Nat) (d : ByteSeq) (fin : Bool) (p : Option String),
      (List.replicate k OutFrame.statusProcessing ++ OutFrame.textResponse t :: rest)[i]?
        = some (OutFrame.audioResponse d fin p) →
      ∃ j, j < i ∧
        (List.replicate k OutFrame.statusProcessing ++ OutFrame.textResponse t :: rest)[j]?
          = some (OutFrame.textResponse t) := by
  intro i d fin p hi
  have hk : (List.replicate k OutFrame.statusProcessing ++ OutFrame.textResponse t :: rest)[k]?
      = some (OutFrame.textResponse t) := by
    rw [List.getElem?_append_right (by simp)]
    simp
  refine ⟨k, ?_, hk⟩
  rcases Nat.lt_trichotomy i k with h | h | h
  · rw [List.getElem?_append_left (by simpa using h),
        List.getElem?_replicate_of_lt h] at hi
    simp at hi
  · subst h
    rw [hk] at hi
    simp at hi
  · exact h

/-- Claim C1: for an utterance whose AI backend call returns success,
every `audio_response` frame with non-empty data the gateway writes on
the session appears strictly after a `text_response` frame of the same
utterance. -/
theorem c1_text_before_audio (default : String) (runOf : String → ProviderRun)
    (k : Nat) (hs skip : Bool) (res : ConvexResult) (cfg : Option String)
    (hsuc : res.success = true) :
    ∀ (i : Nat) (d : ByteSeq) (fin : Bool) (p : Option String),
      (processAndRespond default runOf k hs skip res cfg)[i]?
        = some (OutFrame.audioResponse d fin p) →
      d ≠ [] →
      ∃ j, j < i ∧
        (processAndRespond default runOf k hs skip res cfg)[j]?
          = some (OutFrame.textResponse res.text) := by
  intro i d fin p hi _
  have hexp : processAndRespond default runOf k hs skip res cfg
      = List.replicate k OutFrame.statusProcessing ++ OutFrame.textResponse res.text ::
        (if hs ∧ res.text ≠ "" ∧ ¬skip then
          match streamToClient default runOf cfg with
          | some out => out.1
          | none => [ttsFailedFrame]
        else if res.audioData ≠ [] then
          [OutFrame.audioResponse res.audioData true none]
        else []) := by
    simp [processAndRespond, hsuc]
  rw [hexp] at hi ⊢
  exact textFirstAux k res.text _ i d fin p hi

/-- Witness for C1: a successful response streamed through the default
provider; the audio frame at index 1 is preceded by the text frame. -/
theorem c1_witness :
    ∃ j, j < 1 ∧
      (processAndRespond "elevenlabs" (fun _ => { yielded := [[1, 2]], raised := false })
          0 true false { success := true, text := "hi", audioData := [], error := "" } none)[j]?
        = some (OutFrame.textResponse "hi") :=
  c1_text_before_audio "elevenlabs" (fun _ => { yielded := [[1, 2]], raised := false })
    0 true false { success := true, text := "hi", audioData := [], error := "" } none rfl
    1 [1, 2] false (some "elevenlabs") (by decide) (by decide)

/-- Claim C4: a final pcm16 utterance of 2n buffered bytes at advertised
rate r is dispatched as the base64 of a WAV container, and that
container parses back to 1 channel, 2 bytes per sample, frame rate r,
n frames, and audio data equal to the buffered bytes. -/
theorem c4_pcm16_wav_roundtrip (r n : Nat) (pcm : ByteSeq)
    (hlen : pcm.length = 2 * n) (hn : 0 < n)
    (hfit : pcm.length + 36 < 4294967296) (hr : r < 4294967296) :
    handleAudioChunk pcm
        { data := "", metadata := { isFinal := true, format := "pcm16", sampleRate := r } }
      = { buffer := [], sent := [OutFrame.statusProcessing],
          dispatch := some { audioData := base64Encode (wavContainer r pcm), format := "wav" } }
    ∧ parseWav (wavContainer r pcm)
      = some { channels := 1, sampwidth := 2, frameRate := r, nframes := n, audioData := pcm } := by
  have hbuf : 0 < pcm.length := by omega
  constructor
  · have hlow : strToLower "pcm16" = "pcm16" := by decide
    simp [handleAudioChunk, hbuf, finishUtterance, hlow, containerize]
  · have hexp : wavContainer r pcm =
      82 :: 73 :: 70 :: 70 ::
      ((36 + pcm.length) % 256) :: ((36 + pcm.length) / 256 % 256) ::
      ((36 + pcm.length) / 65536 % 256) :: ((36 + pcm.length) / 16777216 % 256) ::
      87 :: 65 :: 86 :: 69 :: 102 :: 109 :: 116 :: 32 ::
      16 :: 0 :: 0 :: 0 :: 1 :: 0 :: 1 :: 0 ::
      (r % 256) :: (r / 256 % 256) :: (r / 65536 % 256) :: (r / 16777216 % 256) ::
      (r * 2 % 256) :: (r * 2 / 256 % 256) :: (r * 2 / 65536 % 256) :: (r * 2 / 16777216 % 256) ::
      2 :: 0 :: 16 :: 0 :: 100 :: 97 :: 116 :: 97 ::
      (pcm.length % 256) :: (pcm.length / 256 % 256) ::
      (pcm.length / 65536 % 256) :: (pcm.length / 16777216 % 256) :: pcm := by
      simp [wavContainer, u32le, u16le]
    rw [hexp]
    simp only [parseWav]
    norm_num
    refine ⟨?_, ?_, ?_⟩ <;> omega

/-- Witness for C4 at a concrete 4-byte pcm16 buffer at 16 kHz. -/
theorem c4_witness :
    handleAudioChunk [1, 2, 3, 4]
        { data := "", metadata := { isFinal := true, format := "pcm16", sampleRate := 16000 } }
      = { buffer := [], sent := [OutFrame.statusProcessing],
          dispatch := some { audioData := base64Encode (wavContainer 16000 [1, 2, 3, 4]), format := "wav" } }
    ∧ parseWav (wavContainer 16000 [1, 2, 3, 4])
      = some { channels := 1, sampwidth := 2, frameRate := 16000, nframes := 2, audioData := [1, 2, 3, 4] } :=
  c4_pcm16_wav_roundtrip 16000 2 [1, 2, 3, 4] (by decide) (by decide) (by decide) (by decide)

end Pommai
